import Mathlib

/-!
Verification development for the Kubernetes proxy load generator
(`load-generator.py`).  The definitions below are a shallow embedding of
the traffic-generation and metrics-aggregation engine: configuration
loading and merging, vendor/pattern initialisation, the request executor
`_make_request`, the derived error-rate computation of
`_update_system_metrics`, the pacing loop of `_generate_traffic_pattern`,
the pattern selection of `run`, and the `/health` success-rate field.
External effects (the event loop, the HTTP transport, random number
generation, wall-clock time, the Faker library) are passed in as explicit
parameters; Prometheus metric families become explicit finite-support
maps inside a state record.
-/

namespace LoadGen

/-- A YAML-like value as produced by `yaml.safe_load`: strings, integers,
sequences and string-keyed mappings (a mapping is an association list in
insertion order, as Python dicts are ordered). -/
inductive YVal where
  | s (v : String)
  | n (v : Nat)
  | arr (v : List YVal)
  | dict (v : List (String × YVal))

/-- First binding for a key in an association list (Python `d[k]` /
`k in d` lookup on an insertion-ordered dict). -/
def assocFind (d : List (String × YVal)) (k : String) : Option YVal :=
  match d with
  | [] => none
  | (k', v) :: rest => if k' = k then some v else assocFind rest k

/-- Python `{**a, **b}`: keys of `a` in order, values overridden by `b`
where present, followed by the keys of `b` that are new.  This is a
top-level (shallow) merge: nested mappings are replaced wholesale. -/
def mergeAssoc (a b : List (String × YVal)) : List (String × YVal) :=
  a.map (fun p => match assocFind b p.1 with
    | some v => (p.1, v)
    | none => p)
  ++ b.filter (fun p => (assocFind a p.1).isNone)

/-- The built-in `default_config` literal of `_load_config`
(lines 134-187 of `load-generator.py`). -/
def default_config_entries : List (String × YVal) :=
  [ ("vendors", YVal.dict
      [ ("vendor-a", YVal.dict
          [ ("base_url", YVal.s "https://proxy-vendor-a.com"),
            ("pools", YVal.arr [YVal.s "datacenter-us-east", YVal.s "datacenter-us-west", YVal.s "datacenter-eu"]),
            ("auth_headers", YVal.dict [("X-API-Key", YVal.s "vendor-a-key")]),
            ("rate_limit", YVal.n 1000),
            ("timeout", YVal.n 30),
            ("retry_count", YVal.n 3) ]),
        ("vendor-b", YVal.dict
          [ ("base_url", YVal.s "https://proxy-vendor-b.com"),
            ("pools", YVal.arr [YVal.s "residential-us", YVal.s "residential-eu", YVal.s "residential-asia"]),
            ("auth_headers", YVal.dict [("Authorization", YVal.s "Bearer vendor-b-token")]),
            ("rate_limit", YVal.n 500),
            ("timeout", YVal.n 45),
            ("retry_count", YVal.n 2) ]),
        ("vendor-c", YVal.dict
          [ ("base_url", YVal.s "https://proxy-vendor-c.com"),
            ("pools", YVal.arr [YVal.s "mobile-us", YVal.s "mobile-eu", YVal.s "mobile-global"]),
            ("auth_headers", YVal.dict [("X-Auth-Token", YVal.s "vendor-c-token")]),
            ("rate_limit", YVal.n 300),
            ("timeout", YVal.n 60),
            ("retry_count", YVal.n 1) ]) ]),
    ("destinations", YVal.arr
      [ YVal.s "https://httpbin.org",
        YVal.s "https://jsonplaceholder.typicode.com",
        YVal.s "https://api.github.com",
        YVal.s "https://postman-echo.com" ]),
    ("traffic_patterns", YVal.dict
      [ ("burst", YVal.dict
          [ ("requests_per_second", YVal.n 50),
            ("duration", YVal.n 300),
            ("methods", YVal.arr [YVal.s "GET", YVal.s "POST"]),
            ("payload_sizes", YVal.arr [YVal.n 100, YVal.n 500, YVal.n 1000, YVal.n 5000]) ]),
        ("steady", YVal.dict
          [ ("requests_per_second", YVal.n 10),
            ("duration", YVal.n 3600),
            ("methods", YVal.arr [YVal.s "GET"]),
            ("payload_sizes", YVal.arr [YVal.n 100, YVal.n 200]) ]),
        ("spike", YVal.dict
          [ ("requests_per_second", YVal.n 200),
            ("duration", YVal.n 60),
            ("methods", YVal.arr [YVal.s "GET", YVal.s "POST", YVal.s "PUT"]),
            ("payload_sizes", YVal.arr [YVal.n 50, YVal.n 100, YVal.n 500, YVal.n 1000, YVal.n 10000]) ]) ]) ]

/-- `_load_config` (lines 132-198).  The argument models the combined
result of `open` + `yaml.safe_load`: `Except.error` for a missing file or
a parse error.  On a successfully parsed mapping the result is the
shallow merge `\x7b**default_config, **config\x7d`; any failure inside the
`try` block, including a parsed non-mapping value (for which the `**`
splat raises `TypeError`, caught by the blanket `except`), yields the
defaults.  `_load_config` itself never raises. -/
def load_config (file : Except String YVal) : YVal :=
  match file with
  | Except.error _ => YVal.dict default_config_entries
  | Except.ok (YVal.dict d) => YVal.dict (mergeAssoc default_config_entries d)
  | Except.ok _ => YVal.dict default_config_entries

/-- Top-level entries of a configuration value (empty for non-mappings). -/
def config_entries : YVal → List (String × YVal)
  | YVal.dict d => d
  | _ => []

/-- Python `d[k]`: `KeyError` when the key is absent. -/
def yfind (d : List (String × YVal)) (k : String) : Except String YVal :=
  match assocFind d k with
  | some v => Except.ok v
  | none => Except.error ("KeyError: " ++ k)

/-- Shape coercion to an integer.  The Python dataclasses store whatever
value the YAML held; the coercions here make the intended shapes explicit
and succeed on every well-formed configuration (the claims under study
exercise only missing keys and well-typed values). -/
def as_nat : YVal → Except String Nat
  | YVal.n v => Except.ok v
  | _ => Except.error "TypeError: expected integer"

/-- Shape coercion to a string. -/
def as_str : YVal → Except String String
  | YVal.s v => Except.ok v
  | _ => Except.error "TypeError: expected string"

/-- Shape coercion to a mapping. -/
def as_dict : YVal → Except String (List (String × YVal))
  | YVal.dict d => Except.ok d
  | _ => Except.error "TypeError: expected mapping"

/-- Shape coercion to a list of strings. -/
def as_str_list : YVal → Except String (List String)
  | YVal.arr l => l.mapM as_str
  | _ => Except.error "TypeError: expected list"

/-- Shape coercion to a list of integers. -/
def as_nat_list : YVal → Except String (List Nat)
  | YVal.arr l => l.mapM as_nat
  | _ => Except.error "TypeError: expected list"

/-- Shape coercion to a string-to-string mapping. -/
def as_str_dict : YVal → Except String (List (String × String))
  | YVal.dict d => d.mapM (fun p => do
      let v ← as_str p.2
      pure (p.1, v))
  | _ => Except.error "TypeError: expected mapping"

/-- The `ProxyVendor` dataclass (lines 92-101). -/
structure ProxyVendor where
  name : String
  base_url : String
  pools : List String
  auth_headers : List (String × String)
  rate_limit : Nat
  timeout : Nat
  retry_count : Nat
deriving DecidableEq

/-- The `TrafficPattern` dataclass (lines 104-113). -/
structure TrafficPattern where
  name : String
  requests_per_second : Nat
  duration : Nat
  methods : List String
  destinations : List String
  payload_sizes : List Nat
  headers : List (String × String)
deriving DecidableEq

/-- `_initialize_vendors` (lines 200-213): iterates
`config['vendors'].items()`, reading the required keys of each vendor
entry; a missing key is a `KeyError` that propagates (there is no
`try` around it). -/
def init_vendors (config : YVal) : Except String (List (String × ProxyVendor)) := do
  let entries ← as_dict config
  let vend ← yfind entries "vendors" >>= as_dict
  vend.mapM (fun p => do
    let cfg ← as_dict p.2
    let burl ← yfind cfg "base_url" >>= as_str
    let pools ← yfind cfg "pools" >>= as_str_list
    let auth ← yfind cfg "auth_headers" >>= as_str_dict
    let rl ← yfind cfg "rate_limit" >>= as_nat
    let tmo ← yfind cfg "timeout" >>= as_nat
    let rcnt ← yfind cfg "retry_count" >>= as_nat
    pure (p.1, ProxyVendor.mk p.1 burl pools auth rl tmo rcnt))

/-- `_initialize_patterns` (lines 215-228): iterates
`config['traffic_patterns'].items()`; `requests_per_second`, `duration`,
`methods` and `payload_sizes` are read with `config[...]` (a `KeyError`
propagates when one is missing); `headers` alone uses
`config.get('headers', \x7b\x7d)`; `destinations` comes from the top-level
configuration. -/
def init_patterns (config : YVal) : Except String (List (String × TrafficPattern)) := do
  let entries ← as_dict config
  let tp ← yfind entries "traffic_patterns" >>= as_dict
  tp.mapM (fun p => do
    let cfg ← as_dict p.2
    let rps ← yfind cfg "requests_per_second" >>= as_nat
    let dur ← yfind cfg "duration" >>= as_nat
    let methods ← yfind cfg "methods" >>= as_str_list
    let dests ← yfind entries "destinations" >>= as_str_list
    let sizes ← yfind cfg "payload_sizes" >>= as_nat_list
    let hdrs ← match assocFind cfg "headers" with
      | some h => as_str_dict h
      | none => Except.ok []
    pure (p.1, TrafficPattern.mk p.1 rps dur methods dests sizes hdrs))

/-- `LoadGenerator.__init__` (lines 119-130) as far as startup success is
concerned: `_load_config` (which never raises), then
`_initialize_vendors`, then `_initialize_patterns`; an exception from
either initialiser propagates out of the constructor and is fatal to
startup (the constructor call in `main` is outside any handler). -/
def init_generator (file : Except String YVal) :
    Except String (List (String × ProxyVendor) × List (String × TrafficPattern)) := do
  let cfg := load_config file
  let vs ← init_vendors cfg
  let ps ← init_patterns cfg
  pure (vs, ps)

/-! ## Metrics state and the request executor -/

/-- The `self.stats` dictionary (lines 125-130), ignoring the wall-clock
`start_time` entry. -/
structure RunStats where
  total_requests : Nat
  successful_requests : Nat
  failed_requests : Nat
deriving DecidableEq

/-- Point update of a one-key metric family. -/
def upd1 {β : Type} (f : String → β) (k : String) (v : β) : String → β :=
  fun x => if x = k then v else f x

/-- Point update of a two-key metric family. -/
def upd2 {β : Type} (f : String → String → β) (a b : String) (v : β) :
    String → String → β :=
  fun x y => if x = a ∧ y = b then v else f x y

/-- Point update of a four-key metric family. -/
def upd4 {β : Type} (f : String → String → String → String → β)
    (a b c d : String) (v : β) : String → String → String → String → β :=
  fun x y z w => if x = a ∧ y = b ∧ z = c ∧ w = d then v else f x y z w

/-- The process-wide metric families and run statistics touched by
`_make_request`: `REQUEST_COUNTER[vendor, method, status_code,
destination_host]`, `BANDWIDTH_SENT[vendor, destination_host]`,
`BANDWIDTH_RECEIVED[vendor, destination_host]`,
`ACTIVE_CONNECTIONS[vendor]`, `PROXY_POOL_HEALTH[vendor, pool]`,
`ERROR_RATE[vendor]`, and `self.stats`.  Prometheus children default to
0 on first access.  `conn_events` is a ghost log recording, in program
order, every `.inc()` (+1) and `.dec()` (-1) performed on the
`ACTIVE_CONNECTIONS` gauge; it instruments the state without altering
behaviour.  The request-duration histogram is omitted: it is a pure
function of externally supplied wall-clock times and no studied property
mentions it. -/
structure GenState where
  request_count : String → String → String → String → Nat
  bytes_sent : String → String → Nat
  bytes_received : String → String → Nat
  active_connections : String → Int
  pool_health : String → String → Int
  error_rate : String → ℚ
  stats : RunStats
  conn_events : List (String × Int)

/-- Process start: every counter and gauge at 0, empty statistics. -/
def initState : GenState where
  request_count := fun _ _ _ _ => 0
  bytes_sent := fun _ _ => 0
  bytes_received := fun _ _ => 0
  active_connections := fun _ => 0
  pool_health := fun _ _ => 0
  error_rate := fun _ => 0
  stats := ⟨0, 0, 0⟩
  conn_events := []

/-- `ACTIVE_CONNECTIONS.labels(vendor=v).inc()` with its ghost event. -/
def inc_active (g : GenState) (v : String) : GenState :=
  { g with
    active_connections := upd1 g.active_connections v (g.active_connections v + 1),
    conn_events := g.conn_events ++ [(v, 1)] }

/-- `ACTIVE_CONNECTIONS.labels(vendor=v).dec()` with its ghost event. -/
def dec_active (g : GenState) (v : String) : GenState :=
  { g with
    active_connections := upd1 g.active_connections v (g.active_connections v - 1),
    conn_events := g.conn_events ++ [(v, -1)] }

/-- `REQUEST_COUNTER.labels(...).inc()`. -/
def inc_request_count (g : GenState) (v m s d : String) : GenState :=
  { g with request_count := upd4 g.request_count v m s d
                              (g.request_count v m s d + 1) }

/-- `random.choice(seq)`: a uniformly chosen element for a nonempty
sequence (the supplied draw `r` is reduced modulo the length), an
`IndexError` for an empty one. -/
def random_choice {α : Type} (l : List α) (r : Nat) : Except String α :=
  match l.get? (r % l.length) with
  | some a => Except.ok a
  | none => Except.error "IndexError: list index out of range"

/-- The `paths` table of `_make_request` (lines 271-276), with the
`.get(destination, ['/'])` fallback. -/
def dest_paths (destination : String) : List String :=
  if destination = "https://httpbin.org" then
    ["/get", "/post", "/put", "/delete", "/status/200", "/delay/1"]
  else if destination = "https://jsonplaceholder.typicode.com" then
    ["/posts", "/users", "/comments", "/albums"]
  else if destination = "https://api.github.com" then
    ["/users/octocat", "/repos/microsoft/vscode", "/rate_limit"]
  else if destination = "https://postman-echo.com" then
    ["/get", "/post", "/status/200", "/delay/1"]
  else ["/"]

/-- The path chosen for a destination.  `dest_paths` always returns a
nonempty list, so the `random.choice` here can never raise; the fallback
branch is unreachable. -/
def choose_path (destination : String) (r : Nat) : String :=
  match random_choice (dest_paths destination) r with
  | Except.ok p => p
  | Except.error _ => "/"

/-- `urljoin(destination, path)` for the base addresses in play (scheme
and host with no path component) joined to an absolute path reference:
plain concatenation. -/
def urljoin (base path : String) : String := base ++ path

/-- `destination.replace('https://', '').replace('http://', '')`. -/
def destination_host (d : String) : String :=
  (d.replace "https://" "").replace "http://" ""

/-- The transport collaborator's answer to one outbound call: a response
with a status code and a body of `body_size` bytes (the result of
`response.read()`), or a raised exception. -/
structure HttpResponse where
  status : Nat
  body_size : Nat
deriving DecidableEq

/-- The dictionary `_make_request` returns: the success shape
(lines 324-334) carries the integer status plus request/response sizes,
the failure shape (lines 353-362) carries the `'error'` status marker and
the exception text.  The wall-clock `duration` and `timestamp` entries
are omitted. -/
inductive RequestOutcome where
  | completed (vendor pool method url : String) (status : Nat)
      (request_size response_size : Nat)
  | failed (vendor pool method url : String) (error : String)
deriving DecidableEq

/-- The `data` assignment of `_make_request` (lines 265-268): a body is
synthesized only for `POST`/`PUT` with a positive payload size. -/
def payload_data (method : String) (payload_size : Nat)
    (payload_text : String) : Option String :=
  if (method = "POST" ∨ method = "PUT") ∧ 0 < payload_size then
    some payload_text
  else none

/-- The `try`/`except`/`finally` body of `_make_request`
(lines 281-364), after the pool has been chosen.  The gauge is
incremented, the call is made, and both the success branch and the
blanket `except` branch record their metrics and build the returned
dictionary; the `finally` decrement runs on both.  No exception escapes
this part. -/
def execute_with_pool (g : GenState) (vendor : ProxyVendor) (pool : String)
    (method destination : String) (payload_size : Nat) (payload_text : String)
    (r_path : Nat) (transport : Except String HttpResponse) :
    GenState × RequestOutcome :=
  let data := payload_data method payload_size payload_text
  let url := urljoin destination (choose_path destination r_path)
  let host := destination_host destination
  let g1 := inc_active g vendor.name
  match transport with
  | Except.ok resp =>
    let g2 := inc_request_count g1 vendor.name method (toString resp.status) host
    let g3 := match data with
      | some d =>
        { g2 with bytes_sent := upd2 g2.bytes_sent vendor.name host
                                  (g2.bytes_sent vendor.name host + d.utf8ByteSize) }
      | none => g2
    let g4 :=
      { g3 with bytes_received := upd2 g3.bytes_received vendor.name host
                                    (g3.bytes_received vendor.name host + resp.body_size) }
    let health : Int := if 200 ≤ resp.status ∧ resp.status < 400 then 1 else 0
    let g5 := { g4 with pool_health := upd2 g4.pool_health vendor.name pool health }
    let g6 :=
      { g5 with stats :=
          { total_requests := g5.stats.total_requests + 1,
            successful_requests := if 200 ≤ resp.status ∧ resp.status < 400 then
                                     g5.stats.successful_requests + 1
                                   else g5.stats.successful_requests,
            failed_requests := if 200 ≤ resp.status ∧ resp.status < 400 then
                                 g5.stats.failed_requests
                               else g5.stats.failed_requests + 1 } }
    let g7 := dec_active g6 vendor.name
    (g7, RequestOutcome.completed vendor.name pool method url
      resp.status (match data with | some d => d.utf8ByteSize | none => 0)
      resp.body_size)
  | Except.error e =>
    let g2 := inc_request_count g1 vendor.name method "error" host
    let g3 := { g2 with pool_health := upd2 g2.pool_health vendor.name pool 0 }
    let g4 :=
      { g3 with stats :=
          { total_requests := g3.stats.total_requests + 1,
            successful_requests := g3.stats.successful_requests,
            failed_requests := g3.stats.failed_requests + 1 } }
    let g5 := dec_active g4 vendor.name
    (g5, RequestOutcome.failed vendor.name pool method url e)

/-- `_make_request` (lines 249-364).  Randomness (`r_pool`, `r_path`),
the Faker payload text and the transport's answer are explicit
parameters.  `pool = random.choice(vendor.pools)` runs before the `try`
block: on an empty pool list its `IndexError` propagates out of the
coroutine (outer `Except.error`) with no metric touched.  Otherwise the
`try` body `execute_with_pool` runs and its outcome is returned. -/
def make_request (g : GenState) (vendor : ProxyVendor)
    (method destination : String) (payload_size : Nat) (payload_text : String)
    (r_pool r_path : Nat) (transport : Except String HttpResponse) :
    GenState × Except String RequestOutcome :=
  match random_choice vendor.pools r_pool with
  | Except.error e => (g, Except.error e)
  | Except.ok pool =>
    let r := execute_with_pool g vendor pool method destination payload_size
      payload_text r_path transport
    (r.1, Except.ok r.2)

/-- One synthesized request as dispatched by a scheduler: the chosen
vendor/method/destination/payload together with the environment's
answers for this request. -/
structure ReqInput where
  vendor : ProxyVendor
  method : String
  destination : String
  payload_size : Nat
  payload_text : String
  r_pool : Nat
  r_path : Nat
  transport : Except String HttpResponse

/-- The state after a sequence of completed request executions. -/
def run_all (g : GenState) (inputs : List ReqInput) : GenState :=
  inputs.foldl
    (fun st i =>
      (make_request st i.vendor i.method i.destination i.payload_size
        i.payload_text i.r_pool i.r_path i.transport).1)
    g

/-! ## Derived error rate (`_update_system_metrics`, lines 402-419) -/

/-- The method list hardcoded in the error-rate recomputation. -/
def known_methods : List String := ["GET", "POST", "PUT", "DELETE"]

/-- The status-code list hardcoded in the total-requests sum. -/
def known_status_codes : List String := ["200", "201", "400", "404", "500", "error"]

/-- The status-code list hardcoded in the error-requests sum. -/
def known_error_codes : List String := ["400", "404", "500", "error"]

/-- The destination-host list hardcoded in both sums. -/
def known_destination_hosts : List String :=
  ["httpbin.org", "jsonplaceholder.typicode.com", "api.github.com", "postman-echo.com"]

/-- The generator-expression sum `for m ... for s ... for d ...` over the
request counter, for a given vendor and status list. -/
def sum_requests (rc : String → String → String → String → Nat)
    (v : String) (statuses : List String) : Nat :=
  (known_methods.map (fun m =>
    (statuses.map (fun s =>
      (known_destination_hosts.map (fun d => rc v m s d)).sum)).sum)).sum

/-- `total_requests` of the tick (lines 404-409). -/
def total_requests_of (rc : String → String → String → String → Nat)
    (v : String) : Nat :=
  sum_requests rc v known_status_codes

/-- `error_requests` of the tick (lines 411-416). -/
def error_requests_of (rc : String → String → String → String → Nat)
    (v : String) : Nat :=
  sum_requests rc v known_error_codes

/-- `error_rate = (error_requests / total_requests * 100) if
total_requests > 0 else 0` (line 418). -/
def compute_error_rate (rc : String → String → String → String → Nat)
    (v : String) : ℚ :=
  if 0 < total_requests_of rc v then
    (error_requests_of rc v : ℚ) / (total_requests_of rc v : ℚ) * 100
  else 0

/-- One tick of the error-rate loop: `ERROR_RATE.labels(vendor).set(...)`
for every known vendor (lines 403-419). -/
def update_error_rates (g : GenState) (vendor_names : List String) : GenState :=
  { g with error_rate := vendor_names.foldl
                           (fun er v => upd1 er v (compute_error_rate g.request_count v))
                           g.error_rate }

/-- A recorded status string that the studied claim counts as an error:
the transport-fault marker or a 4xx/5xx code. -/
def status_is_error_like (s : String) : Prop :=
  s = "error" ∨ ∃ n : Nat, s = toString n ∧ 400 ≤ n ∧ n < 600

/-! ## Health document (`health_handler`, lines 435-445) -/

/-- `success_rate = (successful_requests / max(total_requests, 1)) * 100`
(line 443). -/
def success_rate (s : RunStats) : ℚ :=
  ((s.successful_requests : ℚ) / ((max s.total_requests 1 : Nat) : ℚ)) * 100

/-! ## Pattern scheduler (`_generate_traffic_pattern`, lines 366-388) -/

/-- The pacing loop under idealized timing: starting at time `t`, while
`t < endTime`, dispatch one request (recording its dispatch time) and
advance the clock by exactly `interval` (the `asyncio.sleep`; dispatch
itself is fire-and-forget and, against a stub transport that answers
instantly, consumes no time).  `fuel` bounds the number of iterations
considered; the theorems discharge it. -/
def sched_times (interval endTime : ℚ) : Nat → ℚ → List ℚ
  | 0, _ => []
  | fuel + 1, t =>
    if t < endTime then t :: sched_times interval endTime fuel (t + interval)
    else []

/-- `_generate_traffic_pattern` for a pattern with rate `R` and duration
`D`, reduced to its dispatch times: `end_time = now + D` with `now = 0`
and `request_interval = 1 / R`.  Fuel `R * D + 1` covers every iteration
the loop can perform (proved below). -/
def generate_traffic_pattern (R D : Nat) : List ℚ :=
  sched_times (1 / (R : ℚ)) (D : ℚ) (R * D + 1) 0

/-! ## Run coordinator (`run`, lines 475-508) -/

/-- What the coordinator does after pattern-name validation: gather the
schedulers of the valid names, or sleep forever when there are none. -/
inductive RunMode where
  | gather (valid : List String)
  | idleForever
deriving DecidableEq

/-- The pattern-selection logic of `run` (lines 493-508): names found in
the catalogue become scheduler tasks in request order, unknown names are
skipped with a warning; with no tasks the coroutine enters the
`while True: await asyncio.sleep(60)` idle loop. -/
def run_plan (catalogue : List String) (requested : List String) : RunMode :=
  let valid := requested.filter (fun n => catalogue.contains n)
  if valid = [] then RunMode.idleForever else RunMode.gather valid

/-! ## Ghost-event accounting for the active-connections gauge -/

/-- Net effect on `ACTIVE_CONNECTIONS[v]` of a list of gauge events. -/
def conn_sum (v : String) (events : List (String × Int)) : Int :=
  ((events.filter (fun p => p.1 = v)).map Prod.snd).sum

/-! ## Helper lemmas about the request executor -/

/-- The pool `random.choice` picks from a nonempty pool list. -/
def pool_choice (vendor : ProxyVendor) (r : Nat) : String :=
  match random_choice vendor.pools r with
  | Except.ok p => p
  | Except.error _ => ""

/-- Gauge/ledger agreement for one vendor: the `ACTIVE_CONNECTIONS`
gauge equals the net sum of its ghost events, and no event-list position
ever drives the running sum negative. -/
def ConnInv (g : GenState) (v : String) : Prop :=
  g.active_connections v = conn_sum v g.conn_events ∧
  ∀ n : Nat, 0 ≤ conn_sum v (g.conn_events.take n)

/-- A syntactically valid vendor whose pool list is empty: nothing in
configuration loading forbids `pools: []`. -/
def vendor_no_pools : ProxyVendor where
  name := "vendor-x"
  base_url := "https://proxy-x.com"
  pools := []
  auth_headers := []
  rate_limit := 100
  timeout := 30
  retry_count := 1

/-- The default `vendor-a` as a `ProxyVendor`, used to instantiate
hypotheses at a concrete input. -/
def vendorA : ProxyVendor where
  name := "vendor-a"
  base_url := "https://proxy-vendor-a.com"
  pools := ["datacenter-us-east", "datacenter-us-west", "datacenter-eu"]
  auth_headers := [("X-API-Key", "vendor-a-key")]
  rate_limit := 1000
  timeout := 30
  retry_count := 3

/-- A request-counter state holding exactly one recorded request:
`vendor-a` made a `GET` to `httpbin.org` that came back with HTTP 503. -/
def rc503 : String → String → String → String → Nat :=
  fun v m s d =>
    if v = "vendor-a" ∧ m = "GET" ∧ s = "503" ∧ d = "httpbin.org" then 1
    else 0

/-- A request-counter state whose only recorded requests for `vendor-a`
are transport faults (status marker `'error'`). -/
def rc_all_error : String → String → String → String → Nat :=
  fun v m s d =>
    if v = "vendor-a" ∧ m = "GET" ∧ s = "error" ∧ d = "httpbin.org" then 3
    else 0

/-- A parsed configuration whose single traffic pattern lacks
`requests_per_second` (its rate): syntactically valid YAML that
`_load_config` accepts. -/
def bad_pattern_config : YVal :=
  YVal.dict [("traffic_patterns", YVal.dict
    [("bad", YVal.dict
      [ ("duration", YVal.n 10),
        ("methods", YVal.arr [YVal.s "GET"]),
        ("payload_sizes", YVal.arr [YVal.n 100]) ])])]

theorem random_choice_of_ne_nil {α : Type} (l : List α) (r : Nat) (h : l ≠ []) :
    ∃ a, random_choice l r = Except.ok a := by
  unfold random_choice
  have hlen : 0 < l.length := List.length_pos.mpr h
  have hlt : r % l.length < l.length := Nat.mod_lt _ hlen
  rw [List.get?_eq_get hlt]
  exact ⟨_, rfl⟩

theorem pool_choice_spec (vendor : ProxyVendor) (r : Nat)
    (h : vendor.pools ≠ []) :
    random_choice vendor.pools r = Except.ok (pool_choice vendor r) := by
  obtain ⟨a, ha⟩ := random_choice_of_ne_nil vendor.pools r h
  simp [pool_choice, ha]

theorem make_request_of_ne_nil (g : GenState) (vendor : ProxyVendor)
    (method destination : String) (psize : Nat) (ptext : String)
    (rp rpath : Nat) (transport : Except String HttpResponse)
    (h : vendor.pools ≠ []) :
    make_request g vendor method destination psize ptext rp rpath transport =
      ((execute_with_pool g vendor (pool_choice vendor rp) method destination
          psize ptext rpath transport).1,
       Except.ok (execute_with_pool g vendor (pool_choice vendor rp) method
          destination psize ptext rpath transport).2) := by
  unfold make_request
  rw [pool_choice_spec vendor rp h]

theorem exec_ok_stats (g : GenState) (vendor : ProxyVendor)
    (pool method destination : String) (psize : Nat) (ptext : String)
    (rpath : Nat) (resp : HttpResponse) :
    (execute_with_pool g vendor pool method destination psize ptext rpath
        (Except.ok resp)).1.stats =
      ⟨g.stats.total_requests + 1,
       if 200 ≤ resp.status ∧ resp.status < 400 then
         g.stats.successful_requests + 1
       else g.stats.successful_requests,
       if 200 ≤ resp.status ∧ resp.status < 400 then
         g.stats.failed_requests
       else g.stats.failed_requests + 1⟩ := by
  cases hd : payload_data method psize ptext <;>
    simp [execute_with_pool, hd, inc_active, dec_active, inc_request_count]

theorem exec_ok_pool_health (g : GenState) (vendor : ProxyVendor)
    (pool method destination : String) (psize : Nat) (ptext : String)
    (rpath : Nat) (resp : HttpResponse) :
    (execute_with_pool g vendor pool method destination psize ptext rpath
        (Except.ok resp)).1.pool_health vendor.name pool =
      (if 200 ≤ resp.status ∧ resp.status < 400 then 1 else 0) := by
  cases hd : payload_data method psize ptext <;>
    simp [execute_with_pool, hd, inc_active, dec_active, inc_request_count, upd2]

theorem exec_err_stats (g : GenState) (vendor : ProxyVendor)
    (pool method destination : String) (psize : Nat) (ptext : String)
    (rpath : Nat) (e : String) :
    (execute_with_pool g vendor pool method destination psize ptext rpath
        (Except.error e)).1.stats =
      ⟨g.stats.total_requests + 1, g.stats.successful_requests,
       g.stats.failed_requests + 1⟩ := by
  simp [execute_with_pool, inc_active, dec_active, inc_request_count]

theorem exec_err_pool_health (g : GenState) (vendor : ProxyVendor)
    (pool method destination : String) (psize : Nat) (ptext : String)
    (rpath : Nat) (e : String) :
    (execute_with_pool g vendor pool method destination psize ptext rpath
        (Except.error e)).1.pool_health vendor.name pool = 0 := by
  simp [execute_with_pool, inc_active, dec_active, inc_request_count, upd2]

theorem exec_err_request_count (g : GenState) (vendor : ProxyVendor)
    (pool method destination : String) (psize : Nat) (ptext : String)
    (rpath : Nat) (e : String) :
    (execute_with_pool g vendor pool method destination psize ptext rpath
        (Except.error e)).1.request_count vendor.name method "error"
        (destination_host destination) =
      g.request_count vendor.name method "error"
        (destination_host destination) + 1 := by
  simp [execute_with_pool, inc_active, dec_active, inc_request_count, upd4]

theorem exec_err_outcome (g : GenState) (vendor : ProxyVendor)
    (pool method destination : String) (psize : Nat) (ptext : String)
    (rpath : Nat) (e : String) :
    (execute_with_pool g vendor pool method destination psize ptext rpath
        (Except.error e)).2 =
      RequestOutcome.failed vendor.name pool method
        (urljoin destination (choose_path destination rpath)) e := by
  simp [execute_with_pool, inc_active, dec_active, inc_request_count]

theorem exec_active_connections (g : GenState) (vendor : ProxyVendor)
    (pool method destination : String) (psize : Nat) (ptext : String)
    (rpath : Nat) (transport : Except String HttpResponse) :
    (execute_with_pool g vendor pool method destination psize ptext rpath
        transport).1.active_connections = g.active_connections := by
  have hkey : ∀ a : String → Int,
      upd1 (upd1 a vendor.name (a vendor.name + 1)) vendor.name
        (upd1 a vendor.name (a vendor.name + 1) vendor.name - 1) = a := by
    intro a
    funext x
    by_cases hx : x = vendor.name <;> simp [upd1, hx]
  cases transport with
  | ok resp =>
    cases hd : payload_data method psize ptext <;>
      simpa [execute_with_pool, hd, inc_active, dec_active,
        inc_request_count] using hkey g.active_connections
  | error e =>
    simpa [execute_with_pool, inc_active, dec_active,
      inc_request_count] using hkey g.active_connections

theorem exec_conn_events (g : GenState) (vendor : ProxyVendor)
    (pool method destination : String) (psize : Nat) (ptext : String)
    (rpath : Nat) (transport : Except String HttpResponse) :
    (execute_with_pool g vendor pool method destination psize ptext rpath
        transport).1.conn_events =
      g.conn_events ++ [(vendor.name, 1), (vendor.name, -1)] := by
  cases transport with
  | ok resp =>
    cases hd : payload_data method psize ptext <;>
      simp [execute_with_pool, hd, inc_active, dec_active, inc_request_count]
  | error e =>
    simp [execute_with_pool, inc_active, dec_active, inc_request_count]

theorem make_request_nil_pools (g : GenState) (vendor : ProxyVendor)
    (method destination : String) (psize : Nat) (ptext : String)
    (rp rpath : Nat) (transport : Except String HttpResponse)
    (h : vendor.pools = []) :
    make_request g vendor method destination psize ptext rp rpath transport =
      (g, Except.error "IndexError: list index out of range") := by
  simp [make_request, random_choice, h]

theorem run_all_cons (g : GenState) (i : ReqInput) (inputs : List ReqInput) :
    run_all g (i :: inputs) =
      run_all (make_request g i.vendor i.method i.destination i.payload_size
        i.payload_text i.r_pool i.r_path i.transport).1 inputs := by
  rfl

theorem make_request_active (g : GenState) (i : ReqInput) :
    (make_request g i.vendor i.method i.destination i.payload_size
      i.payload_text i.r_pool i.r_path i.transport).1.active_connections =
      g.active_connections := by
  by_cases hp : i.vendor.pools = []
  · rw [make_request_nil_pools _ _ _ _ _ _ _ _ _ hp]
  · rw [make_request_of_ne_nil _ _ _ _ _ _ _ _ _ hp]
    exact exec_active_connections _ _ _ _ _ _ _ _ _

theorem run_all_active (inputs : List ReqInput) :
    ∀ g : GenState,
      (run_all g inputs).active_connections = g.active_connections := by
  induction inputs with
  | nil => intro g; rfl
  | cons i is ih =>
    intro g
    rw [run_all_cons, ih, make_request_active]

theorem conn_sum_append (v : String) (l1 l2 : List (String × Int)) :
    conn_sum v (l1 ++ l2) = conn_sum v l1 + conn_sum v l2 := by
  simp [conn_sum, List.filter_append]

theorem conn_sum_block (v w : String) :
    conn_sum v [(w, 1), (w, -1)] = 0 := by
  by_cases h : w = v <;> simp [conn_sum, h]

theorem conn_sum_take_block (v w : String) (m : Nat) :
    0 ≤ conn_sum v ([(w, (1 : Int)), (w, -1)].take m) := by
  match m with
  | 0 => simp [conn_sum]
  | 1 => by_cases h : w = v <;> simp [conn_sum, h]
  | m + 2 =>
    have : ([(w, (1 : Int)), (w, -1)].take (m + 2)) = [(w, 1), (w, -1)] := by
      simp [List.take_succ_cons]
    rw [this, conn_sum_block]

theorem conn_inv_step (g : GenState) (i : ReqInput) (v : String)
    (h : ConnInv g v) :
    ConnInv (make_request g i.vendor i.method i.destination i.payload_size
      i.payload_text i.r_pool i.r_path i.transport).1 v := by
  by_cases hp : i.vendor.pools = []
  · rw [make_request_nil_pools _ _ _ _ _ _ _ _ _ hp]
    exact h
  · rw [make_request_of_ne_nil _ _ _ _ _ _ _ _ _ hp]
    constructor
    · rw [exec_active_connections, exec_conn_events, conn_sum_append,
        conn_sum_block, add_zero]
      exact h.1
    · intro n
      rw [exec_conn_events, List.take_append_eq_append_take, conn_sum_append]
      have h1 := h.2 n
      have h2 := conn_sum_take_block v i.vendor.name (n - g.conn_events.length)
      omega

theorem run_all_conn_inv (inputs : List ReqInput) :
    ∀ g : GenState, ∀ v : String,
      ConnInv g v → ConnInv (run_all g inputs) v := by
  induction inputs with
  | nil => intro g v h; exact h
  | cons i is ih =>
    intro g v h
    rw [run_all_cons]
    exact ih _ v (conn_inv_step g i v h)

theorem make_request_stats_shape (g : GenState) (i : ReqInput) :
    (make_request g i.vendor i.method i.destination i.payload_size
        i.payload_text i.r_pool i.r_path i.transport).1.stats = g.stats ∨
    ((make_request g i.vendor i.method i.destination i.payload_size
        i.payload_text i.r_pool i.r_path i.transport).1.stats.total_requests =
        g.stats.total_requests + 1 ∧
     (((make_request g i.vendor i.method i.destination i.payload_size
          i.payload_text i.r_pool i.r_path i.transport).1.stats.successful_requests =
          g.stats.successful_requests + 1 ∧
       (make_request g i.vendor i.method i.destination i.payload_size
          i.payload_text i.r_pool i.r_path i.transport).1.stats.failed_requests =
          g.stats.failed_requests) ∨
      ((make_request g i.vendor i.method i.destination i.payload_size
          i.payload_text i.r_pool i.r_path i.transport).1.stats.successful_requests =
          g.stats.successful_requests ∧
       (make_request g i.vendor i.method i.destination i.payload_size
          i.payload_text i.r_pool i.r_path i.transport).1.stats.failed_requests =
          g.stats.failed_requests + 1))) := by
  by_cases hp : i.vendor.pools = []
  · left
    rw [make_request_nil_pools _ _ _ _ _ _ _ _ _ hp]
  · right
    rw [make_request_of_ne_nil _ _ _ _ _ _ _ _ _ hp]
    cases htr : i.transport with
    | ok resp =>
      rw [exec_ok_stats]
      by_cases hs : 200 ≤ resp.status ∧ resp.status < 400
      · exact ⟨rfl, Or.inl (by simp [hs])⟩
      · exact ⟨rfl, Or.inr (by simp [hs])⟩
    | error e =>
      rw [exec_err_stats]
      exact ⟨rfl, Or.inr ⟨rfl, rfl⟩⟩

theorem run_all_stats_inv (inputs : List ReqInput) :
    ∀ g : GenState,
      g.stats.total_requests =
        g.stats.successful_requests + g.stats.failed_requests →
      (run_all g inputs).stats.total_requests =
        (run_all g inputs).stats.successful_requests +
          (run_all g inputs).stats.failed_requests := by
  induction inputs with
  | nil => intro g h; exact h
  | cons i is ih =>
    intro g h
    rw [run_all_cons]
    apply ih
    rcases make_request_stats_shape g i with heq | ⟨ht, hc⟩
    · rw [heq]; exact h
    · rcases hc with ⟨hs, hf⟩ | ⟨hs, hf⟩ <;> omega

/-! ## Claim C2 -/

/-- C2, counterexample.  The claim says `execute` never propagates a
raised fault, including non-network exceptions during request
construction, and always returns a `RequestOutcome`.  But
`random.choice(vendor.pools)` runs before the `try` block, so for a
vendor with an empty pool list the `IndexError` raised during request
construction propagates out of `_make_request` and no outcome is
returned. -/
theorem make_request_empty_pools_raises :
    (make_request initState vendor_no_pools "GET" "https://httpbin.org" 0 ""
        0 0 (Except.error "ConnectionError")).2 =
      Except.error "IndexError: list index out of range" ∧
    ((make_request initState vendor_no_pools "GET" "https://httpbin.org" 0 ""
        0 0 (Except.error "ConnectionError")).2).isOk = false := by
  constructor <;> rfl

/-- C2, amended: for every vendor whose pool list is nonempty, a failure
raised by the outbound call itself is fully absorbed: `_make_request`
returns a `RequestOutcome` carrying the error marker, records the
failure under the `'error'` status in the request counter, sets
`pool_health` to 0 for the chosen pool, and counts the request as
failed; only an exception raised during request construction before the
`try` block (pool selection from an empty pool list) propagates. -/
theorem transport_fault_absorbed (g : GenState) (vendor : ProxyVendor)
    (method destination : String) (psize : Nat) (ptext : String)
    (rp rpath : Nat) (e : String) (hp : vendor.pools ≠ []) :
    (make_request g vendor method destination psize ptext rp rpath
        (Except.error e)).2 =
      Except.ok (RequestOutcome.failed vendor.name (pool_choice vendor rp)
        method (urljoin destination (choose_path destination rpath)) e) ∧
    (make_request g vendor method destination psize ptext rp rpath
        (Except.error e)).1.request_count vendor.name method "error"
        (destination_host destination) =
      g.request_count vendor.name method "error"
        (destination_host destination) + 1 ∧
    (make_request g vendor method destination psize ptext rp rpath
        (Except.error e)).1.pool_health vendor.name
        (pool_choice vendor rp) = 0 ∧
    (make_request g vendor method destination psize ptext rp rpath
        (Except.error e)).1.stats.total_requests =
      g.stats.total_requests + 1 ∧
    (make_request g vendor method destination psize ptext rp rpath
        (Except.error e)).1.stats.failed_requests =
      g.stats.failed_requests + 1 := by
  rw [make_request_of_ne_nil _ _ _ _ _ _ _ _ _ hp]
  refine ⟨?_, ?_, ?_, ?_, ?_⟩
  · rw [exec_err_outcome]
  · exact exec_err_request_count g vendor (pool_choice vendor rp) method
      destination psize ptext rpath e
  · exact exec_err_pool_health g vendor (pool_choice vendor rp) method
      destination psize ptext rpath e
  · rw [exec_err_stats]
  · rw [exec_err_stats]

/-- C2 witness: the amended theorem applied to `vendor-a` and a
connection error. -/
theorem transport_fault_absorbed_witness :
    vendorA.pools ≠ [] ∧
    ((make_request initState vendorA "GET" "https://httpbin.org" 0 "" 0 0
        (Except.error "ConnectionError")).2 =
      Except.ok (RequestOutcome.failed vendorA.name (pool_choice vendorA 0)
        "GET" (urljoin "https://httpbin.org" (choose_path "https://httpbin.org" 0))
        "ConnectionError") ∧
    (make_request initState vendorA "GET" "https://httpbin.org" 0 "" 0 0
        (Except.error "ConnectionError")).1.request_count vendorA.name "GET"
        "error" (destination_host "https://httpbin.org") =
      initState.request_count vendorA.name "GET" "error"
        (destination_host "https://httpbin.org") + 1 ∧
    (make_request initState vendorA "GET" "https://httpbin.org" 0 "" 0 0
        (Except.error "ConnectionError")).1.pool_health vendorA.name
        (pool_choice vendorA 0) = 0 ∧
    (make_request initState vendorA "GET" "https://httpbin.org" 0 "" 0 0
        (Except.error "ConnectionError")).1.stats.total_requests =
      initState.stats.total_requests + 1 ∧
    (make_request initState vendorA "GET" "https://httpbin.org" 0 "" 0 0
        (Except.error "ConnectionError")).1.stats.failed_requests =
      initState.stats.failed_requests + 1) :=
  ⟨by decide,
   transport_fault_absorbed initState vendorA "GET" "https://httpbin.org" 0 ""
     0 0 "ConnectionError" (by decide)⟩

/-! ## Claim C4 -/

/-- C4: the gauge is incremented before the call and decremented exactly
once on every completion path, so after any mix of completed requests —
any vendors, methods, destinations, transport successes, failures or
raised construction faults — `active_connections[v]` is back to 0, and
the running sum of the gauge's increment/decrement ledger never goes
negative at any point of the run. -/
theorem active_connections_balanced (inputs : List ReqInput) (v : String) :
    (run_all initState inputs).active_connections v = 0 ∧
    ∀ n : Nat, 0 ≤ conn_sum v ((run_all initState inputs).conn_events.take n) := by
  constructor
  · rw [run_all_active]
    rfl
  · have hinv : ConnInv initState v := by
      constructor
      · rfl
      · intro n
        simp [initState, conn_sum]
    exact (run_all_conn_inv inputs initState v hinv).2

/-! ## Claim C5 -/

/-- C5: a request completing with status `S` sets `pool_health` for the
chosen (vendor, pool) to 1 exactly when `200 ≤ S < 400` (0 otherwise),
always increments `total_requests`, and increments exactly the matching
one of `successful_requests` / `failed_requests`. -/
theorem pool_health_and_stats_on_completion (g : GenState)
    (vendor : ProxyVendor) (method destination : String) (psize : Nat)
    (ptext : String) (rp rpath : Nat) (S blen : Nat)
    (hp : vendor.pools ≠ []) :
    (make_request g vendor method destination psize ptext rp rpath
        (Except.ok ⟨S, blen⟩)).1.pool_health vendor.name
        (pool_choice vendor rp) =
      (if 200 ≤ S ∧ S < 400 then 1 else 0) ∧
    (make_request g vendor method destination psize ptext rp rpath
        (Except.ok ⟨S, blen⟩)).1.stats.total_requests =
      g.stats.total_requests + 1 ∧
    (make_request g vendor method destination psize ptext rp rpath
        (Except.ok ⟨S, blen⟩)).1.stats.successful_requests =
      (if 200 ≤ S ∧ S < 400 then g.stats.successful_requests + 1
       else g.stats.successful_requests) ∧
    (make_request g vendor method destination psize ptext rp rpath
        (Except.ok ⟨S, blen⟩)).1.stats.failed_requests =
      (if 200 ≤ S ∧ S < 400 then g.stats.failed_requests
       else g.stats.failed_requests + 1) := by
  rw [make_request_of_ne_nil _ _ _ _ _ _ _ _ _ hp]
  refine ⟨?_, ?_, ?_, ?_⟩
  · exact exec_ok_pool_health g vendor (pool_choice vendor rp) method
      destination psize ptext rpath ⟨S, blen⟩
  · rw [exec_ok_stats]
  · rw [exec_ok_stats]
  · rw [exec_ok_stats]

/-- C5 witness: `vendor-a` completing with HTTP 200. -/
theorem pool_health_and_stats_on_completion_witness :
    vendorA.pools ≠ [] ∧
    ((make_request initState vendorA "GET" "https://httpbin.org" 0 "" 0 0
        (Except.ok ⟨200, 5⟩)).1.pool_health vendorA.name
        (pool_choice vendorA 0) =
      (if 200 ≤ 200 ∧ 200 < 400 then 1 else 0) ∧
    (make_request initState vendorA "GET" "https://httpbin.org" 0 "" 0 0
        (Except.ok ⟨200, 5⟩)).1.stats.total_requests =
      initState.stats.total_requests + 1 ∧
    (make_request initState vendorA "GET" "https://httpbin.org" 0 "" 0 0
        (Except.ok ⟨200, 5⟩)).1.stats.successful_requests =
      (if 200 ≤ 200 ∧ 200 < 400 then initState.stats.successful_requests + 1
       else initState.stats.successful_requests) ∧
    (make_request initState vendorA "GET" "https://httpbin.org" 0 "" 0 0
        (Except.ok ⟨200, 5⟩)).1.stats.failed_requests =
      (if 200 ≤ 200 ∧ 200 < 400 then initState.stats.failed_requests
       else initState.stats.failed_requests + 1)) :=
  ⟨by decide,
   pool_health_and_stats_on_completion initState vendorA "GET"
     "https://httpbin.org" 0 "" 0 0 200 5 (by decide)⟩

/-! ## Claim C9 -/

/-- C9: in every state reachable by completed requests from process
start, the health document's `success_rate` equals
`successful_requests / total_requests × 100` whenever
`total_requests > 0`, and equals 0 — with no division-by-zero fault, the
divisor being `max(total, 1)` — when `total_requests = 0`. -/
theorem success_rate_guarded (inputs : List ReqInput) :
    (0 < (run_all initState inputs).stats.total_requests →
      success_rate (run_all initState inputs).stats =
        ((run_all initState inputs).stats.successful_requests : ℚ) /
          ((run_all initState inputs).stats.total_requests : ℚ) * 100) ∧
    ((run_all initState inputs).stats.total_requests = 0 →
      success_rate (run_all initState inputs).stats = 0) := by
  have hinv := run_all_stats_inv inputs initState rfl
  constructor
  · intro hpos
    unfold success_rate
    rw [Nat.max_eq_left hpos]
  · intro h0
    have hsucc : (run_all initState inputs).stats.successful_requests = 0 := by
      omega
    unfold success_rate
    rw [hsucc, h0]
    norm_num

/-- C9 witness: at process start (no requests), `success_rate` is 0. -/
theorem success_rate_guarded_witness :
    success_rate (run_all initState []).stats = 0 :=
  (success_rate_guarded []).2 rfl

/-! ## Claim C10 -/

/-- C10: all three run counters start at 0; every completed request
(success or failure outcome) increments `total_requests` by exactly 1
and exactly one of `successful_requests` / `failed_requests` by exactly
1; consequently `total = successful + failed` holds after every sequence
of completed executions. -/
theorem stats_invariant :
    initState.stats = ⟨0, 0, 0⟩ ∧
    (∀ (g : GenState) (i : ReqInput) (o : RequestOutcome),
      (make_request g i.vendor i.method i.destination i.payload_size
          i.payload_text i.r_pool i.r_path i.transport).2 = Except.ok o →
      (make_request g i.vendor i.method i.destination i.payload_size
          i.payload_text i.r_pool i.r_path i.transport).1.stats.total_requests =
        g.stats.total_requests + 1 ∧
      (((make_request g i.vendor i.method i.destination i.payload_size
            i.payload_text i.r_pool i.r_path i.transport).1.stats.successful_requests =
            g.stats.successful_requests + 1 ∧
        (make_request g i.vendor i.method i.destination i.payload_size
            i.payload_text i.r_pool i.r_path i.transport).1.stats.failed_requests =
            g.stats.failed_requests) ∨
       ((make_request g i.vendor i.method i.destination i.payload_size
            i.payload_text i.r_pool i.r_path i.transport).1.stats.successful_requests =
            g.stats.successful_requests ∧
        (make_request g i.vendor i.method i.destination i.payload_size
            i.payload_text i.r_pool i.r_path i.transport).1.stats.failed_requests =
            g.stats.failed_requests + 1))) ∧
    (∀ inputs : List ReqInput,
      (run_all initState inputs).stats.total_requests =
        (run_all initState inputs).stats.successful_requests +
          (run_all initState inputs).stats.failed_requests) := by
  refine ⟨rfl, ?_, fun inputs => run_all_stats_inv inputs initState rfl⟩
  intro g i o hok
  by_cases hp : i.vendor.pools = []
  · rw [make_request_nil_pools _ _ _ _ _ _ _ _ _ hp] at hok
    exact absurd hok (by simp)
  · rcases make_request_stats_shape g i with heq | h
    · exfalso
      rw [make_request_of_ne_nil _ _ _ _ _ _ _ _ _ hp] at heq
      have := exec_ok_stats
      cases htr : i.transport with
      | ok resp =>
        rw [htr] at heq
        rw [exec_ok_stats] at heq
        have h1 := congrArg RunStats.total_requests heq
        simp at h1
      | error e =>
        rw [htr] at heq
        rw [exec_err_stats] at heq
        have h1 := congrArg RunStats.total_requests heq
        simp at h1
    · exact h

/-! ## Claim C1 -/

theorem sum_requests_append (rc : String → String → String → String → Nat)
    (v : String) (a b : List String) :
    sum_requests rc v (a ++ b) = sum_requests rc v a + sum_requests rc v b := by
  simp [sum_requests, known_methods, List.map_append, List.sum_append]
  ring

theorem status_codes_split :
    known_status_codes = ["200", "201"] ++ known_error_codes := rfl

theorem sum_requests_clean_zero (rc : String → String → String → String → Nat)
    (v : String)
    (h : ∀ m ∈ known_methods, ∀ s ∈ known_status_codes,
      ∀ d ∈ known_destination_hosts, 0 < rc v m s d → s ∈ known_error_codes) :
    sum_requests rc v ["200", "201"] = 0 := by
  unfold sum_requests
  apply List.sum_eq_zero
  intro x hx
  rw [List.mem_map] at hx
  obtain ⟨m, hm, rfl⟩ := hx
  apply List.sum_eq_zero
  intro y hy
  rw [List.mem_map] at hy
  obtain ⟨s, hs, rfl⟩ := hy
  apply List.sum_eq_zero
  intro z hz
  rw [List.mem_map] at hz
  obtain ⟨d, hd, rfl⟩ := hz
  by_contra hne
  have hpos : 0 < rc v m s d := Nat.pos_of_ne_zero hne
  simp only [List.mem_cons, List.not_mem_nil, or_false] at hs
  have hsin : s ∈ known_status_codes := by
    rcases hs with h1 | h1 <;> (rw [h1]; decide)
  have hmem := h m hm s hsin d hd hpos
  rcases hs with h1 | h1 <;> (subst h1; revert hmem; decide)

theorem total_sum_eq_zero (rc : String → String → String → String → Nat)
    (v : String) (h : ∀ m s d, rc v m s d = 0) :
    total_requests_of rc v = 0 := by
  unfold total_requests_of sum_requests
  apply List.sum_eq_zero
  intro x hx
  rw [List.mem_map] at hx
  obtain ⟨m, _, rfl⟩ := hx
  apply List.sum_eq_zero
  intro y hy
  rw [List.mem_map] at hy
  obtain ⟨s, _, rfl⟩ := hy
  apply List.sum_eq_zero
  intro z hz
  rw [List.mem_map] at hz
  obtain ⟨d, _, rfl⟩ := hz
  exact h m s d

/-- C1, counterexample.  The claim asserts `error_rate[vendor] = 100`
whenever every recorded request for the vendor is a transport error or
has a 4xx/5xx status, the totals being summed over the
methods/statuses/destinations recorded so far.  But
`_update_system_metrics` sums over a fixed hardcoded cross-product whose
status list is `['200','201','400','404','500','error']`: when the only
recorded request is a `GET` to `httpbin.org` answered with HTTP 503 —
a 5xx — both sums are 0 and the computed rate is 0, not 100. -/
theorem error_rate_hardcoded_counterexample :
    ¬ (∀ (rc : String → String → String → String → Nat) (v : String),
        (∃ m s d, 0 < rc v m s d) →
        (∀ m s d, 0 < rc v m s d → status_is_error_like s) →
        compute_error_rate rc v = 100) := by
  intro hclaim
  have h := hclaim rc503 "vendor-a" ⟨"GET", "503", "httpbin.org", by decide⟩ ?_
  · have h0 : compute_error_rate rc503 "vendor-a" = 0 := by decide
    rw [h0] at h
    norm_num at h
  · intro m s d hpos
    by_cases hc : "vendor-a" = "vendor-a" ∧ m = "GET" ∧ s = "503" ∧
        d = "httpbin.org"
    · obtain ⟨-, -, hs, -⟩ := hc
      subst hs
      exact Or.inr ⟨503, by decide, by omega, by omega⟩
    · exfalso
      unfold rc503 at hpos
      rw [if_neg hc] at hpos
      exact absurd hpos (by omega)

/-- C1, amended: the periodic recomputation sums `request_count` over the
fixed hardcoded cross-product of methods
`['GET','POST','PUT','DELETE']`, statuses
`['200','201','400','404','500','error']` and the four default
destination hosts — not over the dimensions recorded so far.  Over that
cross-product: the rate is 0 whenever the summed total is 0 (in
particular when no requests at all are recorded for the vendor,
divide-by-zero guarded), and the rate is 100 whenever the summed total
is positive and every counted request has status in
`['400','404','500','error']`. -/
theorem error_rate_fixed_cross_product
    (rc : String → String → String → String → Nat) (v : String) :
    ((∀ m s d, rc v m s d = 0) → compute_error_rate rc v = 0) ∧
    (total_requests_of rc v = 0 → compute_error_rate rc v = 0) ∧
    ((∀ m ∈ known_methods, ∀ s ∈ known_status_codes,
        ∀ d ∈ known_destination_hosts, 0 < rc v m s d →
          s ∈ known_error_codes) →
      0 < total_requests_of rc v → compute_error_rate rc v = 100) := by
  refine ⟨?_, ?_, ?_⟩
  · intro h
    unfold compute_error_rate
    rw [if_neg]
    rw [total_sum_eq_zero rc v h]
    omega
  · intro h
    unfold compute_error_rate
    rw [if_neg]
    omega
  · intro herr hpos
    have hsplit : total_requests_of rc v =
        sum_requests rc v ["200", "201"] + error_requests_of rc v := by
      unfold total_requests_of error_requests_of
      rw [status_codes_split, sum_requests_append]
    have hclean := sum_requests_clean_zero rc v herr
    have heq : error_requests_of rc v = total_requests_of rc v := by omega
    unfold compute_error_rate
    rw [if_pos hpos, heq, div_self, one_mul]
    have : (0 : ℚ) < (total_requests_of rc v : ℚ) := by
      exact_mod_cast hpos
    exact ne_of_gt this

/-- C1 witness: a counter whose only entries for `vendor-a` are
transport-fault (`'error'`) requests yields `error_rate = 100`, and the
all-zero counter yields `error_rate = 0`. -/
theorem error_rate_fixed_cross_product_witness :
    ((∀ m ∈ known_methods, ∀ s ∈ known_status_codes,
        ∀ d ∈ known_destination_hosts, 0 < rc_all_error "vendor-a" m s d →
          s ∈ known_error_codes) ∧
      0 < total_requests_of rc_all_error "vendor-a") ∧
    compute_error_rate rc_all_error "vendor-a" = 100 ∧
    compute_error_rate (fun _ _ _ _ => 0) "vendor-a" = 0 :=
  ⟨⟨by decide, by decide⟩,
   (error_rate_fixed_cross_product rc_all_error "vendor-a").2.2
     (by decide) (by decide),
   (error_rate_fixed_cross_product (fun _ _ _ _ => 0) "vendor-a").1
     (fun _ _ _ => rfl)⟩

/-! ## Claim C3 -/

/-- C3, counterexample.  The claim says a pattern definition missing its
rate is recovered with built-in defaults and never fatal.  But a
successfully parsed configuration whose pattern lacks
`requests_per_second` passes `_load_config` untouched (the shallow merge
keeps the user's `traffic_patterns` wholesale) and then
`_initialize_patterns` raises `KeyError` inside
`LoadGenerator.__init__`, which nothing catches: startup fails. -/
theorem missing_rate_fatal_counterexample :
    init_generator (Except.ok bad_pattern_config) =
      Except.error "KeyError: requests_per_second" := by
  rfl

/-- C3, amended: only a failure to load or parse the configuration file
is recovered by substituting the built-in defaults (three vendors, four
destinations, the patterns `burst`, `steady`, `spike`) and is not fatal
to startup; a parsed configuration whose pattern definition lacks its
rate raises a `KeyError` during pattern initialization that is fatal to
startup. -/
theorem config_load_failure_defaults :
    (∀ e : String, ∃ vs ps,
      init_generator (Except.error e) = Except.ok (vs, ps) ∧
      vs.map Prod.fst = ["vendor-a", "vendor-b", "vendor-c"] ∧
      ps.map Prod.fst = ["burst", "steady", "spike"] ∧
      ∀ p ∈ ps, p.2.destinations =
        ["https://httpbin.org", "https://jsonplaceholder.typicode.com",
         "https://api.github.com", "https://postman-echo.com"]) ∧
    (init_generator (Except.ok bad_pattern_config)).isOk = false := by
  constructor
  · intro e
    refine ⟨_, _, rfl, by decide, by decide, by decide⟩
  · rfl

/-! ## Claim C6 -/

theorem assocFind_append (l1 l2 : List (String × YVal)) (k : String)
    (v : YVal) (h : assocFind l1 k = some v) :
    assocFind (l1 ++ l2) k = some v := by
  induction l1 with
  | nil => simp [assocFind] at h
  | cons p rest ih =>
    rw [List.cons_append]
    unfold assocFind at h ⊢
    by_cases hk : p.1 = k
    · rw [if_pos hk] at h ⊢
      exact h
    · rw [if_neg hk] at h ⊢
      exact ih h

theorem assocFind_map_override (b : List (String × YVal)) (k : String)
    (V : YVal) (hb : assocFind b k = some V) :
    ∀ a : List (String × YVal), (assocFind a k).isSome →
      assocFind (a.map (fun p => match assocFind b p.1 with
        | some v => (p.1, v)
        | none => p)) k = some V := by
  intro a
  induction a with
  | nil => intro ha; simp [assocFind] at ha
  | cons p rest ih =>
    intro ha
    rw [List.map_cons]
    by_cases hk : p.1 = k
    · cases hfb : assocFind b p.1 with
      | some w =>
        have hw : w = V := by
          rw [hk, hb] at hfb
          exact (Option.some_inj.mp hfb).symm
        subst hw
        simp only [hfb]
        unfold assocFind
        rw [if_pos hk]
      | none =>
        exfalso
        rw [hk, hb] at hfb
        cases hfb
    · unfold assocFind at ha
      rw [if_neg hk] at ha
      cases hfb : assocFind b p.1 with
      | some w =>
        simp only [hfb]
        unfold assocFind
        rw [if_neg hk]
        exact ih ha
      | none =>
        simp only [hfb]
        unfold assocFind
        rw [if_neg hk]
        exact ih ha

/-- C6: the merge of a loaded configuration over the defaults is a
top-level replace-by-key.  Whenever the parsed configuration mapping
contains a `vendors` key with value `V` — however partial — the merged
configuration's `vendors` entry is exactly `V`: none of the default
vendors are retained. -/
theorem shallow_merge_replaces_vendors (d : List (String × YVal))
    (V : YVal) (h : assocFind d "vendors" = some V) :
    assocFind (config_entries (load_config (Except.ok (YVal.dict d))))
      "vendors" = some V := by
  unfold load_config config_entries mergeAssoc
  apply assocFind_append
  exact assocFind_map_override d "vendors" V h default_config_entries rfl

/-- C6 witness: a configuration whose `vendors` entry is a bare scalar
replaces the entire default vendor table with that scalar. -/
theorem shallow_merge_replaces_vendors_witness :
    assocFind [("vendors", YVal.n 7)] "vendors" = some (YVal.n 7) ∧
    assocFind (config_entries (load_config (Except.ok
      (YVal.dict [("vendors", YVal.n 7)])))) "vendors" = some (YVal.n 7) :=
  ⟨rfl, shallow_merge_replaces_vendors [("vendors", YVal.n 7)] (YVal.n 7) rfl⟩

/-! ## Claim C7 -/

theorem sched_times_length (R D : Nat) (hR : 0 < R) :
    ∀ (fuel k : Nat), R * D ≤ k + fuel →
      (sched_times (1 / (R : ℚ)) (D : ℚ) fuel ((k : ℚ) / (R : ℚ))).length =
        R * D - k := by
  intro fuel
  induction fuel with
  | zero =>
    intro k hk
    simp only [sched_times, List.length_nil]
    omega
  | succ f ih =>
    intro k hk
    unfold sched_times
    by_cases hlt : k < R * D
    · have hRq : (0 : ℚ) < (R : ℚ) := by exact_mod_cast hR
      have hDR : k < D * R := by
        rw [Nat.mul_comm D R]
        exact hlt
      have hql : ((k : ℚ) / (R : ℚ)) < (D : ℚ) := by
        rw [div_lt_iff₀ hRq]
        exact_mod_cast hDR
      rw [if_pos hql, List.length_cons]
      have hstep : ((k : ℚ) / (R : ℚ)) + 1 / (R : ℚ) =
          (((k + 1 : Nat) : ℚ)) / (R : ℚ) := by
        push_cast
        rw [div_add_div_same]
      rw [hstep, ih (k + 1) (by omega)]
      omega
    · have hRq : (0 : ℚ) < (R : ℚ) := by exact_mod_cast hR
      have hDR : D * R ≤ k := by
        rw [Nat.mul_comm D R]
        omega
      have hge : (D : ℚ) ≤ ((k : ℚ) / (R : ℚ)) := by
        rw [le_div_iff₀ hRq]
        exact_mod_cast hDR
      rw [if_neg (not_lt.mpr hge), List.length_nil]
      omega

theorem sched_times_lt (interval endTime : ℚ) :
    ∀ (fuel : Nat) (t : ℚ), ∀ x ∈ sched_times interval endTime fuel t,
      x < endTime := by
  intro fuel
  induction fuel with
  | zero =>
    intro t x hx
    simp [sched_times] at hx
  | succ f ih =>
    intro t x hx
    unfold sched_times at hx
    by_cases h : t < endTime
    · rw [if_pos h] at hx
      rcases List.mem_cons.mp hx with rfl | hxr
      · exact h
      · exact ih _ x hxr
    · rw [if_neg h] at hx
      cases hx

/-- C7: for a pattern with rate `R > 0` and duration `D`, the scheduler
computes `end_time = now + D` and `interval = 1/R`, paces one
fire-and-forget dispatch per interval, dispatches only at times strictly
before the deadline, and — with a stub transport that succeeds instantly
so that dispatch consumes no time — the number of dispatched requests is
exactly `R × D`, hence within ±1 of `R × D`. -/
theorem scheduler_dispatch_count (R D : Nat) (hR : 0 < R) :
    (generate_traffic_pattern R D).length = R * D ∧
    (∀ t ∈ generate_traffic_pattern R D, t < (D : ℚ)) ∧
    (((generate_traffic_pattern R D).length : Int) - ((R : Int) * D)).natAbs ≤ 1 := by
  have hzero : (0 : ℚ) = ((0 : Nat) : ℚ) / (R : ℚ) := by simp
  have hlen : (generate_traffic_pattern R D).length = R * D := by
    unfold generate_traffic_pattern
    rw [hzero, sched_times_length R D hR (R * D + 1) 0 (by omega)]
    omega
  refine ⟨hlen, ?_, ?_⟩
  · intro t ht
    exact sched_times_lt (1 / (R : ℚ)) (D : ℚ) (R * D + 1) 0 t ht
  · rw [hlen]
    simp

/-- C7 witness: rate 2 for 3 seconds dispatches exactly 6 requests. -/
theorem scheduler_dispatch_count_witness :
    0 < 2 ∧
    ((generate_traffic_pattern 2 3).length = 2 * 3 ∧
     (∀ t ∈ generate_traffic_pattern 2 3, t < ((3 : Nat) : ℚ)) ∧
     (((generate_traffic_pattern 2 3).length : Int) - ((2 : Nat) : Int) * 3).natAbs ≤ 1) :=
  ⟨by decide, scheduler_dispatch_count 2 3 (by decide)⟩

/-! ## Claim C8 -/

/-- C8: the coordinator keeps exactly the requested names present in the
pattern catalogue (unknown names are skipped, order preserved, no fault
raised — `run_plan` is total), and when no requested name is valid it
enters the indefinite idle wait instead of exiting. -/
theorem run_plan_skips_unknown (catalogue requested : List String) :
    (∀ n ∈ requested.filter (fun m => catalogue.contains m),
      n ∈ requested ∧ catalogue.contains n = true) ∧
    (∀ n ∈ requested, catalogue.contains n = true →
      n ∈ requested.filter (fun m => catalogue.contains m)) ∧
    (requested.filter (fun m => catalogue.contains m) = [] →
      run_plan catalogue requested = RunMode.idleForever) ∧
    (requested.filter (fun m => catalogue.contains m) ≠ [] →
      run_plan catalogue requested =
        RunMode.gather (requested.filter (fun m => catalogue.contains m))) := by
  refine ⟨?_, ?_, ?_, ?_⟩
  · intro n hn
    rw [List.mem_filter] at hn
    exact hn
  · intro n hn hc
    rw [List.mem_filter]
    exact ⟨hn, hc⟩
  · intro h
    simp only [run_plan]
    rw [if_pos h]
  · intro h
    simp only [run_plan]
    rw [if_neg h]

/-- C8 witness: requesting `bogus` alongside `steady` runs only the
`steady` scheduler. -/
theorem run_plan_skips_unknown_witness :
    ["bogus", "steady"].filter
      (fun m => ["burst", "steady", "spike"].contains m) ≠ [] ∧
    run_plan ["burst", "steady", "spike"] ["bogus", "steady"] =
      RunMode.gather (["bogus", "steady"].filter
        (fun m => ["burst", "steady", "spike"].contains m)) :=
  ⟨by decide,
   (run_plan_skips_unknown ["burst", "steady", "spike"]
     ["bogus", "steady"]).2.2.2 (by decide)⟩

/-- C10 witness: a completed 200 response from `vendor-a` increments
`total_requests` and exactly one of the outcome counters. -/
theorem stats_invariant_witness :
    (make_request initState vendorA "GET" "https://httpbin.org" 0 "" 0 0
        (Except.ok ⟨200, 5⟩)).2 =
      Except.ok (RequestOutcome.completed "vendor-a" "datacenter-us-east"
        "GET" "https://httpbin.org/get" 200 0 5) ∧
    (make_request initState vendorA "GET" "https://httpbin.org" 0 "" 0 0
        (Except.ok ⟨200, 5⟩)).1.stats.total_requests =
      initState.stats.total_requests + 1 := by
  have h2 := (stats_invariant.2.1 initState
    ⟨vendorA, "GET", "https://httpbin.org", 0, "", 0, 0, Except.ok ⟨200, 5⟩⟩
    (RequestOutcome.completed "vendor-a" "datacenter-us-east" "GET"
      "https://httpbin.org/get" 200 0 5) rfl).1
  exact ⟨rfl, h2⟩

end LoadGen
